import Mathlib

/-!
Shallow embedding of `prayer-times-ics-generator.py` (AWQAF prayer-times
ICS calendar generator) and verification of its specification claims.

The embedding translates:
* `TokenManager.get_token` / `TokenManager.refresh_token` (token lifecycle),
* `AWQAFApi.fetch_prayer_times` (date-range construction and response
  filtering/normalisation),
* `CalendarGenerator` (`__init__`, `_create_adhan_event`,
  `_create_prayer_event`, `_create_event_uid`, the `generate` loop),
together with the Python string/date primitives they rely on
(`str.lower`, `str.title`, `str.split`, `%02d` formatting,
`datetime.strptime` for the formats used, `datetime.fromisoformat` for
the `"YYYY-MM-DD HH:MM"` shape the generator feeds it,
`calendar.monthrange`, `date.toordinal`) and the MD5 digest used for
event uids.

Datetimes are represented as absolute minutes (proleptic-Gregorian
ordinal day, as Python's `date.toordinal`, times 1440 plus the minute of
the day); machine arithmetic in MD5 is `Nat` with explicit `% 2^32`.
-/

/-! ## Python string primitives (for the ASCII inputs this program handles) -/

/-- Python `str.lower()` restricted to ASCII (all region/city names and
field contents handled by the program are ASCII). -/
def asciiLower (s : String) : String :=
  String.mk (s.data.map (fun c =>
    if 'A' ≤ c && c ≤ 'Z' then Char.ofNat (c.toNat + 32) else c))

/-- Python `str.title()`: the first alphabetic character of every word is
uppercased, subsequent alphabetic characters lowercased. -/
def pyTitle (s : String) : String :=
  String.mk (s.data.foldl
    (fun (st : List Char × Bool) c =>
      let c2 :=
        if c.isAlpha && !st.2 then c.toUpper
        else if c.isAlpha then c.toLower
        else c
      (st.1 ++ [c2], c.isAlpha))
    ([], false)).1

/-- Helper for `pySplitChar`: splits the remaining characters on `c`,
carrying the current (reversed) field. -/
def splitOnCharAux (c : Char) : List Char → List Char → List (List Char)
  | [], acc => [acc.reverse]
  | x :: xs, acc =>
    if x = c then acc.reverse :: splitOnCharAux c xs []
    else splitOnCharAux c xs (x :: acc)

/-- Python `s.split(sep)` for a one-character separator `sep` (the only
kind this program uses: `'-'`, `':'`, `' '`, `'T'`, `'.'`): empty
fields are kept, and splitting the empty string yields `[""]`. -/
def pySplitChar (s : String) (c : Char) : List String :=
  (splitOnCharAux c s.data []).map String.mk

/-- Digits of a decimal string to a natural number (callers check
`Char.isDigit` first). -/
def digitsToNat (l : List Char) : Nat :=
  l.foldl (fun a c => a * 10 + (c.toNat - 48)) 0

/-- A string of one or two decimal digits (what CPython `strptime`
accepts for `%m`, `%d`, `%H`, `%M`, `%S`). -/
def isDigits12 (s : String) : Bool :=
  (s.length == 1 || s.length == 2) && s.data.all Char.isDigit

/-- A string of exactly `n` decimal digits. -/
def isDigitsLen (n : Nat) (s : String) : Bool :=
  s.length == n && s.data.all Char.isDigit

/-- Python `f"{n:02d}"` for a natural number. -/
def fmt02 (n : Nat) : String :=
  if n < 10 then "0" ++ toString n else toString n

/-- Python `f"{d:02d}"` for an `int` (negative values print with their
sign and no extra padding at width 2). -/
def fmt02Int (d : Int) : String :=
  if 0 ≤ d && d < 10 then "0" ++ toString d else toString d

/-! ## Calendar arithmetic (Python `calendar` / `datetime` modules) -/

/-- Gregorian leap-year rule (as `calendar.isleap`). -/
def isLeap (y : Nat) : Bool :=
  y % 4 == 0 && (y % 100 != 0 || y % 400 == 0)

/-- Number of days in a month (the second component of
`calendar.monthrange`, also used by `datetime` day validation). -/
def daysInMonth (y m : Nat) : Nat :=
  match m with
  | 2 => if isLeap y then 29 else 28
  | 4 => 30
  | 6 => 30
  | 9 => 30
  | 11 => 30
  | _ => 31

/-- Cumulative day counts before each month in a non-leap year. -/
def cumDaysBeforeMonth (m : Nat) : Nat :=
  match m with
  | 1 => 0
  | 2 => 31
  | 3 => 59
  | 4 => 90
  | 5 => 120
  | 6 => 151
  | 7 => 181
  | 8 => 212
  | 9 => 243
  | 10 => 273
  | 11 => 304
  | 12 => 334
  | _ => 0

/-- Days before month `m` of year `y`. -/
def daysBeforeMonth (y m : Nat) : Nat :=
  cumDaysBeforeMonth m + (if 3 ≤ m && isLeap y then 1 else 0)

/-- Python `date(y, m, d).toordinal()`: proleptic-Gregorian ordinal with
`date(1, 1, 1).toordinal() = 1`. -/
def toOrdinal (y m d : Nat) : Nat :=
  365 * (y - 1) + (y - 1) / 4 - (y - 1) / 100 + (y - 1) / 400 +
    daysBeforeMonth y m + d

/-- Absolute minutes of a (timezone-fixed) datetime: every datetime the
program builds lives in the single operating timezone, so comparisons
and `timedelta` additions are plain arithmetic on this value. -/
def dtMinutes (y m d hh mm : Nat) : Nat :=
  toOrdinal y m d * 1440 + hh * 60 + mm

/-- `calendar.monthrange(year, month)` (just the month-length component):
raises `IllegalMonthError` outside 1..12, modelled as `none`. -/
def monthrange (y m : Nat) : Option Nat :=
  if 1 ≤ m && m ≤ 12 then some (daysInMonth y m) else none

/-- `datetime.strptime(s, "%Y-%m-%d")`: exactly four digits for `%Y`,
one or two digits for `%m` / `%d`, and the constructed date must be
valid (`ValueError` otherwise, modelled as `none`). -/
def strptimeYMD (s : String) : Option (Nat × Nat × Nat) :=
  match pySplitChar s '-' with
  | [ys, ms, ds] =>
    if isDigitsLen 4 ys && isDigits12 ms && isDigits12 ds then
      let y := digitsToNat ys.data
      let m := digitsToNat ms.data
      let d := digitsToNat ds.data
      if 1 ≤ y && 1 ≤ m && m ≤ 12 && 1 ≤ d && d ≤ daysInMonth y m then
        some (y, m, d)
      else none
    else none
  | _ => none

/-- `datetime.strptime(s, "%H:%M:%S")`: one or two digits per field,
hour below 24, minute below 60, second below 60 (CPython's `%S`
pattern also matches 60 and 61, but constructing the `datetime` then
raises); every `ValueError` is modelled as `none`. -/
def strptimeHMS (s : String) : Option (Nat × Nat × Nat) :=
  match pySplitChar s ':' with
  | [hs, ms, ss] =>
    if isDigits12 hs && isDigits12 ms && isDigits12 ss then
      let h := digitsToNat hs.data
      let m := digitsToNat ms.data
      let sec := digitsToNat ss.data
      if h < 24 && m < 60 && sec < 60 then some (h, m, sec) else none
    else none
  | _ => none

/-- Time component `"HH:MM"` of the ISO strings the generator builds:
exactly two digits each, hour below 24, minute below 60. -/
def parseHM (s : String) : Option (Nat × Nat) :=
  match pySplitChar s ':' with
  | [hs, ms] =>
    if isDigitsLen 2 hs && isDigitsLen 2 ms then
      let h := digitsToNat hs.data
      let m := digitsToNat ms.data
      if h < 24 && m < 60 then some (h, m) else none
    else none
  | _ => none

/-- Date component `"YYYY-MM-DD"` in strict ISO shape (exactly 4-2-2
digits, valid calendar date). -/
def parseIsoDate (s : String) : Option (Nat × Nat × Nat) :=
  match pySplitChar s '-' with
  | [ys, ms, ds] =>
    if isDigitsLen 4 ys && isDigitsLen 2 ms && isDigitsLen 2 ds then
      let y := digitsToNat ys.data
      let m := digitsToNat ms.data
      let d := digitsToNat ds.data
      if 1 ≤ y && 1 ≤ m && m ≤ 12 && 1 ≤ d && d ≤ daysInMonth y m then
        some (y, m, d)
      else none
    else none
  | _ => none

/-- `CalendarGenerator._parse_datetime`: `datetime.fromisoformat` on the
`"YYYY-MM-DD HH:MM"` strings the generator assembles (the `.replace`
of the timezone does not move the clock reading), yielding absolute
minutes; a `ValueError` on any other shape is modelled as `none`. -/
def parse_datetime (s : String) : Option Nat :=
  match pySplitChar s ' ' with
  | [ds, ts] =>
    match parseIsoDate ds, parseHM ts with
    | some (y, m, d), some (hh, mm) => some (dtMinutes y m d hh mm)
    | _, _ => none
  | _ => none

/-! ## TokenManager (`get_token`, `refresh_token`) -/

/-- `TokenManager.MAX_RETRIES`. -/
def MAX_RETRIES : Nat := 3

/-- `TokenManager.RETRY_DELAY` (seconds). -/
def RETRY_DELAY : Nat := 1

/-- Contents of the persisted `auth_token.json` record. The outer
`Option` is JSON field presence, the inner `Option` is JSON `null`.
Timestamps (`refreshTokenExpiryTime`) are Unix seconds. -/
structure TokenData where
  clientAccessToken : Option (Option String)
  clientRefreshToken : Option (Option String)
  refreshTokenExpiryTime : Option (Option Int)
deriving DecidableEq, Repr

/-- State of the persisted token file as `get_token` finds it. -/
inductive TokenFile where
  | absent
  | unparsable
  | parsed (data : TokenData)
deriving DecidableEq, Repr

/-- Outcome of `TokenManager.get_token` before any refresh work is
done: either the cached access token is returned with no network
activity, or control passes to `refresh_token` (exactly one refresh
sequence), or an exception propagates. -/
inductive TokenOutcome where
  | cached (token : String)
  | refreshed
  | errored (msg : String)
deriving DecidableEq, Repr

/-- Python falsiness of an optional string field (`not x` is true for
`None` and for the empty string). -/
def pyFalsy : Option String → Bool
  | none => true
  | some s => s == ""

/-- `TokenManager.get_token`, over the token-file state and the current
time `now` (Unix seconds; `datetime.now(tz)` and
`datetime.fromtimestamp(ts, tz)` are both absolute instants in the one
fixed timezone, so their comparison is comparison of the underlying
timestamps). Control flow from the source:
* file absent: the `FileNotFoundError` handler raises;
* file unparsable: the `json.JSONDecodeError` is re-raised and is not
  one of the handled exception classes, so it propagates;
* a missing required field raises `KeyError`, which the `KeyError`
  handler turns into an "Invalid token file structure" exception;
* null expiry or falsy access/refresh token: delegate to
  `refresh_token`;
* `now < expiry - 5 minutes`: return the cached access token;
* otherwise delegate to `refresh_token`. -/
def get_token (file : TokenFile) (now : Int) : TokenOutcome :=
  match file with
  | .absent => .errored "Token file 'auth_token.json' not found"
  | .unparsable => .errored "JSONDecodeError"
  | .parsed td =>
    match td.clientAccessToken, td.clientRefreshToken,
        td.refreshTokenExpiryTime with
    | some access, some refresh, some expiry =>
      if expiry.isNone || pyFalsy access || pyFalsy refresh then
        .refreshed
      else
        match access, expiry with
        | some a, some e =>
          if now < e - 5 * 60 then .cached a else .refreshed
        | _, _ => .refreshed
    | _, _, _ =>
      .errored "Invalid token file structure: 'Missing required fields in token data'"

/-- One attempted round trip of the refresh request: a transport
failure (`requests.exceptions.RequestException`), a response whose
`isSuccess` flag is false (raised as `ValueError`), or a successful
response carrying the new tokens. -/
inductive RefreshAttempt where
  | transportError (msg : String)
  | notSuccess (errorDescription : String)
  | success (accessToken refreshToken : String) (expiry : Int)
deriving DecidableEq, Repr

/-- Whether an attempt raises (either exception class is caught by the
same handler in the source). -/
def isFailure : RefreshAttempt → Bool
  | .success _ _ _ => false
  | _ => true

/-- `str(e)` of the exception an attempt raises (for `ValueError` the
message built at the raise site). -/
def attemptErrText : RefreshAttempt → String
  | .transportError m => m
  | .notSuccess d => "Authorization failed: " ++ d
  | .success _ _ _ => ""

/-- Return-or-raise of a `refresh_token` call. -/
inductive RefreshOutcome where
  | ok (accessToken : String)
  | error (msg : String)
deriving DecidableEq, Repr

/-- Result of a `refresh_token` call: the returned access token or the
final exception message, the sleeps performed before each retry (in
order), and the token record persisted to disk (a full replacement),
if any. -/
structure RefreshResult where
  result : RefreshOutcome
  sleeps : List Nat
  persisted : Option TokenData
deriving DecidableEq, Repr

/-- `TokenManager.refresh_token(retry_count)`, with the environment
(the outcome of each numbered attempt) passed explicitly. On success
the new record is written to the token file and the access token
returned; on failure, while `retry_count < MAX_RETRIES`, the code
sleeps `RETRY_DELAY * (retry_count + 1)` seconds and recurses with
`retry_count + 1`; once retries are exhausted it raises, carrying the
last underlying error text. -/
def refresh_token (attempts : Nat → RefreshAttempt) (retry_count : Nat) :
    RefreshResult :=
  match attempts retry_count with
  | .success a r e =>
    { result := .ok a
      sleeps := []
      persisted := some
        { clientAccessToken := some (some a)
          clientRefreshToken := some (some r)
          refreshTokenExpiryTime := some (some e) } }
  | f =>
    if h : retry_count < MAX_RETRIES then
      let rest := refresh_token attempts (retry_count + 1)
      { result := rest.result
        sleeps := RETRY_DELAY * (retry_count + 1) :: rest.sleeps
        persisted := rest.persisted }
    else
      { result := .error ("Failed to refresh token after " ++
          toString MAX_RETRIES ++ " attempts: " ++ attemptErrText f)
        sleeps := []
        persisted := none }
termination_by MAX_RETRIES + 1 - retry_count
decreasing_by simp [MAX_RETRIES] at *; omega

/-! ## MD5 (used by `CalendarGenerator._create_event_uid`) -/

/-- 2^32, the word modulus of MD5. -/
def mod32 : Nat := 4294967296

/-- Bitwise complement on a 32-bit word held in a `Nat`. -/
def not32 (x : Nat) : Nat := 4294967295 ^^^ x

/-- 32-bit left rotation. -/
def rotl32 (x n : Nat) : Nat :=
  ((x <<< n) ||| (x >>> (32 - n))) % mod32

/-- The per-round left-rotation amounts of MD5. -/
def md5S : List Nat :=
  [7, 12, 17, 22, 7, 12, 17, 22, 7, 12, 17, 22, 7, 12, 17, 22,
   5, 9, 14, 20, 5, 9, 14, 20, 5, 9, 14, 20, 5, 9, 14, 20,
   4, 11, 16, 23, 4, 11, 16, 23, 4, 11, 16, 23, 4, 11, 16, 23,
   6, 10, 15, 21, 6, 10, 15, 21, 6, 10, 15, 21, 6, 10, 15, 21]

/-- The per-round additive constants of MD5
(`floor(2^32 * abs(sin(i + 1)))`). -/
def md5K : List Nat :=
  [0xd76aa478, 0xe8c7b756, 0x242070db, 0xc1bdceee,
   0xf57c0faf, 0x4787c62a, 0xa8304613, 0xfd469501,
   0x698098d8, 0x8b44f7af, 0xffff5bb1, 0x895cd7be,
   0x6b901122, 0xfd987193, 0xa679438e, 0x49b40821,
   0xf61e2562, 0xc040b340, 0x265e5a51, 0xe9b6c7aa,
   0xd62f105d, 0x02441453, 0xd8a1e681, 0xe7d3fbc8,
   0x21e1cde6, 0xc33707d6, 0xf4d50d87, 0x455a14ed,
   0xa9e3e905, 0xfcefa3f8, 0x676f02d9, 0x8d2a4c8a,
   0xfffa3942, 0x8771f681, 0x6d9d6122, 0xfde5380c,
   0xa4beea44, 0x4bdecfa9, 0xf6bb4b60, 0xbebfbc70,
   0x289b7ec6, 0xeaa127fa, 0xd4ef3085, 0x04881d05,
   0xd9d4d039, 0xe6db99e5, 0x1fa27cf8, 0xc4ac5665,
   0xf4292244, 0x432aff97, 0xab9423a7, 0xfc93a039,
   0x655b59c3, 0x8f0ccc92, 0xffeff47d, 0x85845dd1,
   0x6fa87e4f, 0xfe2ce6e0, 0xa3014314, 0x4e0811a1,
   0xf7537e82, 0xbd3af235, 0x2ad7d2bb, 0xeb86d391]

/-- One MD5 round: mixing function and message-word index depend on the
round quarter. -/
def md5Round (M : List Nat) (st : Nat × Nat × Nat × Nat) (i : Nat) :
    Nat × Nat × Nat × Nat :=
  let A := st.1
  let B := st.2.1
  let C := st.2.2.1
  let D := st.2.2.2
  let f :=
    if i < 16 then (B &&& C) ||| (not32 B &&& D)
    else if i < 32 then (D &&& B) ||| (not32 D &&& C)
    else if i < 48 then B ^^^ C ^^^ D
    else C ^^^ (B ||| not32 D)
  let g :=
    if i < 16 then i
    else if i < 32 then (5 * i + 1) % 16
    else if i < 48 then (3 * i + 5) % 16
    else (7 * i) % 16
  let f2 := (f + A + md5K.getD i 0 + M.getD g 0) % mod32
  (D, (B + rotl32 f2 (md5S.getD i 0)) % mod32, B, C)

/-- Process one 16-word chunk, updating the running digest state. -/
def md5Chunk (st : Nat × Nat × Nat × Nat) (M : List Nat) :
    Nat × Nat × Nat × Nat :=
  let r := (List.range 64).foldl (md5Round M) st
  ((st.1 + r.1) % mod32, (st.2.1 + r.2.1) % mod32,
   (st.2.2.1 + r.2.2.1) % mod32, (st.2.2.2 + r.2.2.2) % mod32)

/-- Split a byte list into 64-byte chunks (structural recursion on a
fuel bound so the kernel can evaluate it; the fuel never runs out when
started at the list length). -/
def chunks64Aux : Nat → List Nat → List (List Nat)
  | 0, _ => []
  | _, [] => []
  | fuel + 1, l => l.take 64 :: chunks64Aux fuel (l.drop 64)

/-- Split a byte list into 64-byte chunks. -/
def chunks64 (l : List Nat) : List (List Nat) :=
  chunks64Aux l.length l

/-- Group four bytes at a time into little-endian 32-bit words. -/
def toWordsLE (l : List Nat) : List Nat :=
  match l with
  | b0 :: b1 :: b2 :: b3 :: rest =>
    (b0 + b1 * 256 + b2 * 65536 + b3 * 16777216) :: toWordsLE rest
  | _ => []

/-- The `n` least-significant bytes of a `Nat`, little-endian. -/
def leBytes (n : Nat) : Nat → List Nat
  | 0 => []
  | k + 1 => n % 256 :: leBytes (n / 256) k

/-- MD5 padding: a 0x80 byte, zeros to 56 mod 64, then the original bit
length as eight little-endian bytes. -/
def md5Pad (msg : List Nat) : List Nat :=
  let len := msg.length
  let z := (119 - len % 64) % 64
  msg ++ 0x80 :: List.replicate z 0 ++ leBytes (len * 8 % 18446744073709551616) 8

/-- Lowercase hexadecimal digit. -/
def hexDigit (n : Nat) : Char :=
  if n < 10 then Char.ofNat (48 + n) else Char.ofNat (87 + n)

/-- Two lowercase hex digits of a byte. -/
def byteHex (b : Nat) : List Char :=
  [hexDigit (b / 16), hexDigit (b % 16)]

/-- `hashlib.md5(bytes).hexdigest()`: the 128-bit MD5 digest of a byte
string, as 32 lowercase hex characters. -/
def md5Hexdigest (msg : List Nat) : String :=
  let chunks := (chunks64 (md5Pad msg)).map toWordsLE
  let st := chunks.foldl md5Chunk
    (0x67452301, 0xefcdab89, 0x98badcfe, 0x10325476)
  String.mk (((leBytes st.1 4 ++ leBytes st.2.1 4 ++
    leBytes st.2.2.1 4 ++ leBytes st.2.2.2 4).map byteHex).flatten)

/-- UTF-8 encoding of one character. -/
def charUtf8 (c : Char) : List Nat :=
  let n := c.toNat
  if n < 128 then [n]
  else if n < 2048 then
    [192 ||| (n >>> 6), 128 ||| (n &&& 63)]
  else if n < 65536 then
    [224 ||| (n >>> 12), 128 ||| ((n >>> 6) &&& 63), 128 ||| (n &&& 63)]
  else
    [240 ||| (n >>> 18), 128 ||| ((n >>> 12) &&& 63),
     128 ||| ((n >>> 6) &&& 63), 128 ||| (n &&& 63)]

/-- Python `str.encode()`: the UTF-8 bytes of a string. -/
def strBytes (s : String) : List Nat :=
  (s.data.map charUtf8).flatten

/-- `CalendarGenerator._create_event_uid`: hex MD5 of the UTF-8 bytes of
the event key string. -/
def create_event_uid (event_str : String) : String :=
  md5Hexdigest (strBytes event_str)

/-! ## AWQAFApi.fetch_prayer_times: date range and response processing -/

/-- Python truthiness of the optional `day` argument (`if day:` is true
exactly when `day` is present and nonzero). -/
def dayTruthy : Option Int → Bool
  | none => false
  | some d => d != 0

/-- The f-string `f"{year}-{month:02d}-{day:02d}"`. -/
def dateString (year month : Nat) (day : Int) : String :=
  toString year ++ "-" ++ fmt02 month ++ "-" ++ fmt02Int day

/-- The inclusive `(start_date, end_date)` range of the schedule
request: exactly the given day when `day` is truthy, otherwise the
first through last day of the month (`calendar.monthrange`); `none`
models the `IllegalMonthError` `monthrange` raises on an invalid
month (only reachable in month mode, since the day branch does no
validation). -/
def fetch_date_range (year month : Nat) (day : Option Int) :
    Option (String × String) :=
  if dayTruthy day then
    let s := dateString year month (day.getD 0)
    some (s, s)
  else
    match monthrange year month with
    | none => none
    | some last_day =>
      some (dateString year month 1, dateString year month (Int.ofNat last_day))

/-- One entry of the remote response's `prayerData` array. Fields are
read with `item.get(name, '')`, so an absent field is the empty
string. -/
structure ApiItem where
  areaNameEn : String
  gDate : String
  fajr : String
  zuhr : String
  asr : String
  maghrib : String
  isha : String
deriving DecidableEq, Repr

/-- Per-prayer time extraction from a combined date-time field:
an empty field stays empty; otherwise `time_str.split('T')[1]` raises
`IndexError` when no `'T'` is present (`Except.error`, escaping to the
per-item handler), else the part before the first `'.'` is parsed with
`strptime '%H:%M:%S'` and reformatted as zero-padded `"HH:MM"`, a
parse failure being recorded as the empty string. -/
def extract_time (time_str : String) : Except Unit String :=
  if time_str == "" then .ok ""
  else
    match (pySplitChar time_str 'T').get? 1 with
    | none => .error ()
    | some rest =>
      let time_part := (pySplitChar rest '.').headD ""
      match strptimeHMS time_part with
      | some (h, m, _) => .ok (fmt02 h ++ ":" ++ fmt02 m)
      | none => .ok ""

/-- The five canonical prayers, in the order the source iterates them. -/
def prayerNames : List String := ["fajr", "zuhr", "asr", "maghrib", "isha"]

/-- Normalised per-day timings (`prayer_times` dict built by the fetch;
all five keys always present). -/
structure Timings where
  fajr : String
  zuhr : String
  asr : String
  maghrib : String
  isha : String
deriving DecidableEq, Repr

/-- Dictionary lookup `day_data["timings"][prayer]`. The generator only
ever looks up the five canonical names; any other key would raise in
Python and is mapped to the empty string here. -/
def Timings.get (t : Timings) : String → String
  | "fajr" => t.fajr
  | "zuhr" => t.zuhr
  | "asr" => t.asr
  | "maghrib" => t.maghrib
  | "isha" => t.isha
  | _ => ""

/-- One element of the formatted `prayertimes` list. -/
structure DaySchedule where
  date : String
  timings : Timings
deriving DecidableEq, Repr

/-- Processing of one `prayerData` item inside the per-item
`try/except`: `none` both for the explicit `continue`s (region
mismatch, empty date part) and for an exception caught by the handler
(the `IndexError` from a time field without `'T'`). -/
def processItem (city : String) (item : ApiItem) : Option DaySchedule :=
  if asciiLower item.areaNameEn != asciiLower city then none
  else
    let date := ((pySplitChar item.gDate 'T').headD "")
    if date == "" then none
    else
      match extract_time item.fajr, extract_time item.zuhr,
          extract_time item.asr, extract_time item.maghrib,
          extract_time item.isha with
      | .ok f, .ok z, .ok a, .ok m, .ok i =>
        some { date := date, timings := { fajr := f, zuhr := z, asr := a, maghrib := m, isha := i } }
      | _, _, _, _, _ => none

/-- The response-processing phase of `fetch_prayer_times`: keep the
successfully processed items in order; if none remain, raise
`ValueError` with the no-data message, otherwise return the formatted
list. -/
def process_prayer_data (city : String) (items : List ApiItem) :
    Except String (List DaySchedule) :=
  let prayertimes := items.filterMap (processItem city)
  if prayertimes.isEmpty then
    .error ("No prayer times data found for city: " ++ city)
  else
    .ok prayertimes

/-! ## CalendarGenerator -/

/-- `PrayerConfig.ADHAN_DURATIONS` (minutes); `none` models the
`KeyError` a lookup of any other name would raise. -/
def ADHAN_DURATIONS : String → Option Nat
  | "fajr" => some 25
  | "zuhr" => some 20
  | "asr" => some 20
  | "maghrib" => some 5
  | "isha" => some 20
  | _ => none

/-- `PrayerConfig.PRAYER_DURATION` (minutes). -/
def PRAYER_DURATION : Nat := 10

/-- `PrayerConfig.ADHAN_COLOR`. -/
def ADHAN_COLOR : String := "#008000"

/-- `PrayerConfig.PRAYER_COLOR`. -/
def PRAYER_COLOR : String := "#ba1e55"

/-- A VEVENT as the generator builds it: times as absolute minutes, the
single DISPLAY alarm inlined (`trigger` in minutes relative to the
event start). -/
structure IcsEvent where
  uid : String
  dtstart : Nat
  dtend : Nat
  summary : String
  description : String
  location : String
  color : String
  alarmAction : String
  alarmDescription : String
  alarmTrigger : Int
deriving DecidableEq, Repr

/-- Absolute minute at which an event's alarm fires
(start plus trigger offset). -/
def reminderMinutes (e : IcsEvent) : Int :=
  (e.dtstart : Int) + e.alarmTrigger

/-- `CalendarGenerator._create_adhan_event`: `none` models the
exceptions the caller's handler catches (`ValueError` from
`_parse_datetime`, `KeyError` from the duration lookup). -/
def create_adhan_event (city date prayer time : String) : Option IcsEvent :=
  match parse_datetime (date ++ " " ++ time), ADHAN_DURATIONS prayer with
  | some t, some duration =>
    some { uid := create_event_uid (date ++ "_" ++ prayer ++ "_adhan_" ++ city)
           dtstart := t
           dtend := t + duration
           summary := pyTitle prayer ++ " Adhan till Iqamah"
           description := pyTitle prayer ++ " Adhan Time for " ++ city
           location := city
           color := ADHAN_COLOR
           alarmAction := "DISPLAY"
           alarmDescription := pyTitle prayer ++ " Adhan"
           alarmTrigger := 0 }
  | _, _ => none

/-- `CalendarGenerator._create_prayer_event`. -/
def create_prayer_event (city date prayer time : String)
    (adhan_duration : Nat) : Option IcsEvent :=
  match parse_datetime (date ++ " " ++ time) with
  | some t =>
    some { uid := create_event_uid (date ++ "_" ++ prayer ++ "_prayer_" ++ city)
           dtstart := t + adhan_duration
           dtend := t + adhan_duration + PRAYER_DURATION
           summary := pyTitle prayer ++ " Prayer"
           description := pyTitle prayer ++ " Prayer Time for " ++ city
           location := city
           color := PRAYER_COLOR
           alarmAction := "DISPLAY"
           alarmDescription := pyTitle prayer ++ " Prayer in 5 minutes"
           alarmTrigger := -5 }
  | none => none

/-- The body of `generate`'s inner per-prayer loop: nothing when the
time is empty; otherwise the adhan event is added first, then the
prayer event, an exception at either step skipping the rest of the
iteration (so a failed adhan creation adds nothing, and a failure
after a successful adhan creation leaves just the adhan event). -/
def eventsForPrayer (city : String) (dd : DaySchedule) (prayer : String) :
    List IcsEvent :=
  let time := dd.timings.get prayer
  if time == "" then []
  else
    match create_adhan_event city dd.date prayer time with
    | none => []
    | some adhan =>
      match ADHAN_DURATIONS prayer with
      | none => [adhan]
      | some dur =>
        match create_prayer_event city dd.date prayer time dur with
        | none => [adhan]
        | some pr => [adhan, pr]

/-- All events of one day's schedule, in source iteration order. -/
def dayEvents (city : String) (dd : DaySchedule) : List IcsEvent :=
  prayerNames.flatMap (eventsForPrayer city dd)

/-- The day filter at the top of `generate`'s loop: `some true` keeps
the day (no filtering when `day` is falsy), `some false` skips it, and
`none` models the uncaught `ValueError` when a requested-day
comparison must parse an invalid date string. -/
def dayFilterCheck (day : Option Int) (date : String) : Option Bool :=
  match day with
  | none => some true
  | some d =>
    if d == 0 then some true
    else
      match strptimeYMD date with
      | none => none
      | some ymd => some (decide ((ymd.2.2 : Int) = d))

/-- The event-accumulation loop of `CalendarGenerator.generate` (the
calendar metadata and the file write are I/O around this pure core). -/
def generate_events (city : String) (day : Option Int)
    (scheds : List DaySchedule) : Except String (List IcsEvent) :=
  scheds.foldl
    (fun acc dd =>
      match acc with
      | .error e => .error e
      | .ok evs =>
        match dayFilterCheck day dd.date with
        | none => .error "ValueError: time data does not match format"
        | some false => .ok evs
        | some true => .ok (evs ++ dayEvents city dd))
    (.ok [])

/-- The state `CalendarGenerator.__init__` establishes. -/
structure CalendarGenerator where
  prayer_data : List DaySchedule
  city : String
  emirate : String
  first_date : Nat × Nat × Nat
deriving DecidableEq, Repr

/-- `CalendarGenerator.__init__`: reads
`prayer_data["prayertimes"][0]["date"]`, raising `IndexError` on an
empty list, then parses it with `strptime '%Y-%m-%d'`. -/
def calendar_generator_init (prayer_data : List DaySchedule)
    (city emirate : String) : Except String CalendarGenerator :=
  match prayer_data with
  | [] => .error "IndexError: list index out of range"
  | d :: _ =>
    match strptimeYMD d.date with
    | none => .error "ValueError: time data does not match format"
    | some fd =>
      .ok { prayer_data := prayer_data, city := city, emirate := emirate,
            first_date := fd }

set_option maxRecDepth 10000

/-! ## Claims about `get_token` -/

/-- Claim C1: for every persisted token record whose three fields are
present, whose tokens are non-empty and whose expiry (an absolute
timestamp, compared against `now` taken in the fixed operating
timezone) satisfies `expiry > now + 5 minutes`, `get_token` returns the
cached access token; the `cached` outcome performs no network call and
no refresh. -/
theorem get_token_returns_cached_when_fresh
    (td : TokenData) (now e : Int) (a r : String)
    (ha : td.clientAccessToken = some (some a)) (hane : a ≠ "")
    (hr : td.clientRefreshToken = some (some r)) (hrne : r ≠ "")
    (he : td.refreshTokenExpiryTime = some (some e))
    (hfresh : now + 5 * 60 < e) :
    get_token (.parsed td) now = .cached a := by
  have hcond : now < e - 5 * 60 := by omega
  simp [get_token, ha, hr, he, pyFalsy, hane, hrne, hcond]
  omega

/-- Witness for C1 at a concrete fresh record. -/
theorem get_token_returns_cached_when_fresh_witness :
    get_token
      (.parsed
        { clientAccessToken := some (some "tok")
          clientRefreshToken := some (some "ref")
          refreshTokenExpiryTime := some (some 1000) }) 0 = .cached "tok" :=
  get_token_returns_cached_when_fresh _ 0 1000 "tok" "ref" rfl (by decide)
    rfl (by decide) rfl (by decide)

/-- Counterexample to claim C2: a persisted record missing the
`clientAccessToken` field makes `get_token` raise an
"Invalid token file structure" exception (the `KeyError` handler), not
perform a refresh. -/
theorem get_token_missing_field_is_error :
    get_token
      (.parsed
        { clientAccessToken := none
          clientRefreshToken := some (some "ref")
          refreshTokenExpiryTime := some (some 1000) }) 0 =
      .errored "Invalid token file structure: 'Missing required fields in token data'" ∧
    get_token
      (.parsed
        { clientAccessToken := none
          clientRefreshToken := some (some "ref")
          refreshTokenExpiryTime := some (some 1000) }) 0 ≠ .refreshed := by
  exact ⟨by decide, by decide⟩

/-- Claim C2 as amended: a record with all three fields present whose
expiry is null, or whose access or refresh token is null or empty,
makes `get_token` delegate to exactly one refresh sequence; a record
missing any of the three required fields instead fails with the
"Invalid token file structure" error. -/
theorem get_token_refresh_on_invalid_fields :
    (∀ (acc ref : Option String) (exp : Option Int) (now : Int),
      exp = none ∨ pyFalsy acc = true ∨ pyFalsy ref = true →
      get_token
        (.parsed
          { clientAccessToken := some acc
            clientRefreshToken := some ref
            refreshTokenExpiryTime := some exp }) now = .refreshed) ∧
    (∀ (td : TokenData) (now : Int),
      td.clientAccessToken = none ∨ td.clientRefreshToken = none ∨
        td.refreshTokenExpiryTime = none →
      get_token (.parsed td) now =
        .errored "Invalid token file structure: 'Missing required fields in token data'") := by
  constructor
  · intro acc ref exp now h
    rcases h with h | h | h
    · subst h; simp [get_token]
    · simp [get_token, h]
    · simp [get_token, h]
  · intro td now h
    obtain ⟨fa, fr, fe⟩ := td
    cases fa <;> cases fr <;> cases fe <;> first | rfl | simp_all

/-- Witness for the amended C2 at a concrete record with an empty
access token. -/
theorem get_token_refresh_on_invalid_fields_witness :
    get_token
      (.parsed
        { clientAccessToken := some (some "")
          clientRefreshToken := some (some "ref")
          refreshTokenExpiryTime := some (some 1000) }) 0 = .refreshed :=
  get_token_refresh_on_invalid_fields.1 (some "") (some "ref") (some 1000) 0
    (Or.inr (Or.inl (by decide)))

/-- Counterexample to claim C3: with the token file absent, `get_token`
raises "Token file ... not found" instead of attempting a refresh. -/
theorem get_token_absent_file_is_error :
    get_token .absent 0 = .errored "Token file 'auth_token.json' not found" ∧
    get_token .absent 0 ≠ .refreshed := by
  exact ⟨by decide, by decide⟩

/-- Claim C3 as amended: an absent token file makes `get_token` fail
with the "Token file ... not found" error, and an unparsable one lets
the JSON decode error propagate; in neither case is a refresh
attempted at this layer. -/
theorem get_token_absent_or_unparsable_errors (now : Int) :
    get_token .absent now = .errored "Token file 'auth_token.json' not found" ∧
    get_token .unparsable now = .errored "JSONDecodeError" :=
  ⟨rfl, rfl⟩

/-! ## Claim about `refresh_token` -/

/-- Helper: exhausting all retries from attempt `rc` on (with `k`
retries left) fails with the last underlying error, having slept
`RETRY_DELAY * attemptNumber` before each retry, persisting nothing. -/
theorem refresh_token_fail_aux (attempts : Nat → RefreshAttempt) :
    ∀ (k rc : Nat), rc + k = MAX_RETRIES →
    (∀ i, rc ≤ i → i ≤ MAX_RETRIES → isFailure (attempts i) = true) →
    refresh_token attempts rc =
      { result := .error ("Failed to refresh token after " ++
          toString MAX_RETRIES ++ " attempts: " ++
          attemptErrText (attempts MAX_RETRIES))
        sleeps := (List.range k).map (fun i => RETRY_DELAY * (rc + i + 1))
        persisted := none } := by
  intro k
  induction k with
  | zero =>
    intro rc hk h
    have hrc : rc = MAX_RETRIES := by omega
    subst hrc
    have hf := h MAX_RETRIES le_rfl le_rfl
    rw [refresh_token.eq_def]
    cases ha : attempts MAX_RETRIES with
    | success a r e => rw [ha] at hf; simp [isFailure] at hf
    | transportError m => simp [ha, MAX_RETRIES]
    | notSuccess d => simp [ha, MAX_RETRIES]
  | succ k ih =>
    intro rc hk h
    have hrc3 : rc < MAX_RETRIES := by omega
    have hf := h rc le_rfl (by omega)
    have hrest := ih (rc + 1) (by omega) (fun i hi1 hi2 => h i (by omega) hi2)
    have hsl : (List.range (k + 1)).map (fun i => RETRY_DELAY * (rc + i + 1)) =
        RETRY_DELAY * (rc + 1) ::
          (List.range k).map (fun i => RETRY_DELAY * (rc + 1 + i + 1)) := by
      rw [List.range_succ_eq_map, List.map_cons, List.map_map]
      refine congrArg₂ _ (by congr 1) ?_
      refine List.map_congr_left ?_
      intro i _
      simp only [Function.comp]
      congr 1
      omega
    rw [refresh_token.eq_def]
    cases ha : attempts rc with
    | success a r e => rw [ha] at hf; simp [isFailure] at hf
    | transportError m => simp only [ha]; rw [dif_pos hrc3, hrest, hsl]
    | notSuccess d => simp only [ha]; rw [dif_pos hrc3, hrest, hsl]

/-- Helper: a first success at attempt `rc + k` (everything before it
failing) returns the new access token and persists the full new
record, having slept `RETRY_DELAY * attemptNumber` before each of the
`k` retries. -/
theorem refresh_token_success_aux (attempts : Nat → RefreshAttempt)
    (a r : String) (e : Int) :
    ∀ (k rc : Nat), rc + k ≤ MAX_RETRIES →
    (∀ i, i < k → isFailure (attempts (rc + i)) = true) →
    attempts (rc + k) = .success a r e →
    refresh_token attempts rc =
      { result := .ok a
        sleeps := (List.range k).map (fun i => RETRY_DELAY * (rc + i + 1))
        persisted := some
          { clientAccessToken := some (some a)
            clientRefreshToken := some (some r)
            refreshTokenExpiryTime := some (some e) } } := by
  intro k
  induction k with
  | zero =>
    intro rc _ _ hs
    rw [Nat.add_zero] at hs
    rw [refresh_token.eq_def, hs]
    simp
  | succ k ih =>
    intro rc hk h hs
    have hrc3 : rc < MAX_RETRIES := by omega
    have hf := h 0 k.succ_pos
    rw [show rc + 0 = rc from rfl] at hf
    have hrest := ih (rc + 1) (by omega)
      (fun i hi => by
        have := h (i + 1) (by omega)
        rwa [show rc + (i + 1) = rc + 1 + i by omega] at this)
      (by rwa [show rc + 1 + k = rc + (k + 1) by omega])
    have hsl : (List.range (k + 1)).map (fun i => RETRY_DELAY * (rc + i + 1)) =
        RETRY_DELAY * (rc + 1) ::
          (List.range k).map (fun i => RETRY_DELAY * (rc + 1 + i + 1)) := by
      rw [List.range_succ_eq_map, List.map_cons, List.map_map]
      refine congrArg₂ _ (by congr 1) ?_
      refine List.map_congr_left ?_
      intro i _
      simp only [Function.comp]
      congr 1
      omega
    rw [refresh_token.eq_def]
    cases ha : attempts rc with
    | success a2 r2 e2 => rw [ha] at hf; simp [isFailure] at hf
    | transportError m => simp only [ha]; rw [dif_pos hrc3, hrest, hsl]
    | notSuccess d => simp only [ha]; rw [dif_pos hrc3, hrest, hsl]

/-- Claim C4: on transport errors or non-success responses,
`refresh_token` retries up to `MAX_RETRIES = 3` times, sleeping
`RETRY_DELAY * attemptNumber` before each retry (linearly increasing);
after exhausting the retries it fails with an error carrying the last
underlying error text, persisting nothing; and on the first successful
attempt it persists the new token record as a full replacement and
returns the new access token. -/
theorem refresh_token_retry_policy :
    (∀ attempts : Nat → RefreshAttempt,
      (∀ i, i ≤ MAX_RETRIES → isFailure (attempts i) = true) →
      refresh_token attempts 0 =
        { result := .error ("Failed to refresh token after " ++
            toString MAX_RETRIES ++ " attempts: " ++
            attemptErrText (attempts MAX_RETRIES))
          sleeps := (List.range MAX_RETRIES).map
            (fun i => RETRY_DELAY * (i + 1))
          persisted := none }) ∧
    (∀ (attempts : Nat → RefreshAttempt) (k : Nat) (a r : String) (e : Int),
      k ≤ MAX_RETRIES →
      (∀ i, i < k → isFailure (attempts i) = true) →
      attempts k = .success a r e →
      refresh_token attempts 0 =
        { result := .ok a
          sleeps := (List.range k).map (fun i => RETRY_DELAY * (i + 1))
          persisted := some
            { clientAccessToken := some (some a)
              clientRefreshToken := some (some r)
              refreshTokenExpiryTime := some (some e) } }) := by
  constructor
  · intro attempts h
    have := refresh_token_fail_aux attempts MAX_RETRIES 0 (by omega)
      (fun i _ hi2 => h i hi2)
    simpa using this
  · intro attempts k a r e hk h hs
    have := refresh_token_success_aux attempts a r e k 0 (by omega)
      (fun i hi => by simpa using h i hi) (by simpa using hs)
    simpa using this

/-- Witness for C4: a run whose every attempt hits a transport error,
and a run that succeeds on the third attempt after two non-success
responses. -/
theorem refresh_token_retry_policy_witness :
    refresh_token (fun _ => .transportError "timeout") 0 =
      { result := .error "Failed to refresh token after 3 attempts: timeout"
        sleeps := [1, 2, 3]
        persisted := none } ∧
    refresh_token
      (fun i => if i < 2 then .notSuccess "bad" else .success "A" "R" 99) 0 =
      { result := .ok "A"
        sleeps := [1, 2]
        persisted := some
          { clientAccessToken := some (some "A")
            clientRefreshToken := some (some "R")
            refreshTokenExpiryTime := some (some 99) } } := by
  constructor
  · exact (refresh_token_retry_policy.1 (fun _ => .transportError "timeout")
      (fun i _ => rfl)).trans (by decide)
  · exact (refresh_token_retry_policy.2
      (fun i => if i < 2 then .notSuccess "bad" else .success "A" "R" 99)
      2 "A" "R" 99 (by decide) (by decide) (by decide)).trans (by decide)

/-! ## Claim about the fetch date range -/

/-- Claim C8: with no day given, the fetch range runs from the first to
the last day of the requested month inclusive, the last day accounting
for month length including leap years (February 2024 ends on the 29th,
February 2025 on the 28th); with a (positive) day given, the range is
exactly that single day. -/
theorem fetch_date_range_month_and_day :
    fetch_date_range 2024 2 none = some ("2024-02-01", "2024-02-29") ∧
    fetch_date_range 2025 2 none = some ("2025-02-01", "2025-02-28") ∧
    (∀ y m, 1 ≤ m → m ≤ 12 →
      fetch_date_range y m none =
        some (dateString y m 1, dateString y m (Int.ofNat (daysInMonth y m)))) ∧
    (∀ y, daysInMonth y 2 = if isLeap y then 29 else 28) ∧
    (∀ (y m : Nat) (d : Int), 1 ≤ d →
      fetch_date_range y m (some d) =
        some (dateString y m d, dateString y m d)) := by
  refine ⟨by decide, by decide, ?_, fun y => rfl, ?_⟩
  · intro y m h1 h2
    simp [fetch_date_range, dayTruthy, monthrange, h1, h2]
  · intro y m d hd
    have : (d != 0) = true := by simp; omega
    simp [fetch_date_range, dayTruthy, this]

/-- Witness for C8: June 2025 in month mode, January 15th in day mode. -/
theorem fetch_date_range_month_and_day_witness :
    fetch_date_range 2025 6 none = some ("2025-06-01", "2025-06-30") ∧
    fetch_date_range 2025 1 (some 15) = some ("2025-01-15", "2025-01-15") :=
  ⟨(fetch_date_range_month_and_day.2.2.1 2025 6 (by decide) (by decide)).trans
      (by decide),
   (fetch_date_range_month_and_day.2.2.2.2 2025 1 15 (by decide)).trans
      (by decide)⟩

/-! ## Claim about `CalendarGenerator.__init__` -/

/-- Claim C10: constructing the calendar generator on prayer data whose
`prayertimes` list is empty fails immediately with an index error
(taking the first date), so every successful construction had a
non-empty schedule list. -/
theorem generator_init_requires_nonempty_schedule :
    calendar_generator_init [] "Dubai" "Dubai" =
      .error "IndexError: list index out of range" ∧
    (∀ (pd : List DaySchedule) (city emirate : String) (g : CalendarGenerator),
      calendar_generator_init pd city emirate = .ok g → pd ≠ []) := by
  refine ⟨rfl, ?_⟩
  intro pd city emirate g h hnil
  subst hnil
  simp [calendar_generator_init] at h

/-- Witness for C10: a one-day schedule constructs successfully, hence
is non-empty. -/
theorem generator_init_requires_nonempty_schedule_witness :
    ([{ date := "2025-01-15",
        timings :=
          { fajr := "05:12", zuhr := "", asr := "", maghrib := "",
            isha := "" } }] : List DaySchedule) ≠ [] :=
  generator_init_requires_nonempty_schedule.2 _ "Dubai" "Dubai"
    { prayer_data :=
        [{ date := "2025-01-15",
           timings :=
             { fajr := "05:12", zuhr := "", asr := "", maghrib := "",
               isha := "" } }]
      city := "Dubai", emirate := "Dubai", first_date := (2025, 1, 15) }
    (by rfl)

/-! ## Claim about event geometry -/

/-- Claim C5: for every date, prayer with non-empty parseable time `t`
and adhan duration `D` from the fixed table (fajr 25, zuhr 20, asr 20,
maghrib 5, isha 20 minutes), the adhan event spans `[t, t + D)` with
its reminder at offset 0 and the prayer event spans
`[t + D, t + D + 10)` with its reminder 5 minutes before start —
contiguous and non-overlapping; in particular for fajr "05:12" on
2025-01-15 the adhan event is `[05:12, 05:37)` titled
"Fajr Adhan till Iqamah", the prayer event is `[05:37, 05:47)` titled
"Fajr Prayer", and the reminders fire at 05:12 and 05:32. -/
theorem adhan_and_prayer_event_geometry :
    (∀ (city date prayer time : String) (t D : Nat),
      parse_datetime (date ++ " " ++ time) = some t →
      ADHAN_DURATIONS prayer = some D →
      ∃ a p, create_adhan_event city date prayer time = some a ∧
        create_prayer_event city date prayer time D = some p ∧
        a.dtstart = t ∧ a.dtend = t + D ∧ a.alarmTrigger = 0 ∧
        reminderMinutes a = (t : Int) ∧
        p.dtstart = t + D ∧ p.dtend = t + D + PRAYER_DURATION ∧
        p.alarmTrigger = -5 ∧
        reminderMinutes p = (t : Int) + (D : Int) - 5 ∧
        a.dtend = p.dtstart) ∧
    ADHAN_DURATIONS "fajr" = some 25 ∧
    ADHAN_DURATIONS "zuhr" = some 20 ∧
    ADHAN_DURATIONS "asr" = some 20 ∧
    ADHAN_DURATIONS "maghrib" = some 5 ∧
    ADHAN_DURATIONS "isha" = some 20 ∧
    PRAYER_DURATION = 10 ∧
    (create_adhan_event "Dubai" "2025-01-15" "fajr" "05:12").map
        IcsEvent.summary = some "Fajr Adhan till Iqamah" ∧
    (create_adhan_event "Dubai" "2025-01-15" "fajr" "05:12").map
        IcsEvent.dtstart = some (dtMinutes 2025 1 15 5 12) ∧
    (create_adhan_event "Dubai" "2025-01-15" "fajr" "05:12").map
        IcsEvent.dtend = some (dtMinutes 2025 1 15 5 37) ∧
    (create_adhan_event "Dubai" "2025-01-15" "fajr" "05:12").map
        reminderMinutes = some ((dtMinutes 2025 1 15 5 12 : Nat) : Int) ∧
    (create_prayer_event "Dubai" "2025-01-15" "fajr" "05:12" 25).map
        IcsEvent.summary = some "Fajr Prayer" ∧
    (create_prayer_event "Dubai" "2025-01-15" "fajr" "05:12" 25).map
        IcsEvent.dtstart = some (dtMinutes 2025 1 15 5 37) ∧
    (create_prayer_event "Dubai" "2025-01-15" "fajr" "05:12" 25).map
        IcsEvent.dtend = some (dtMinutes 2025 1 15 5 47) ∧
    (create_prayer_event "Dubai" "2025-01-15" "fajr" "05:12" 25).map
        reminderMinutes = some ((dtMinutes 2025 1 15 5 32 : Nat) : Int) := by
  refine ⟨?_, rfl, rfl, rfl, rfl, rfl, rfl,
    by decide, by decide, by decide, by decide,
    by decide, by decide, by decide, by decide⟩
  intro city date prayer time t D hp hd
  simp only [create_adhan_event, create_prayer_event, hp, hd]
  exact ⟨_, _, rfl, rfl, rfl, rfl, rfl, by simp [reminderMinutes],
    rfl, rfl, rfl, by simp [reminderMinutes]; ring, rfl⟩

/-- Witness for C5's universal part: the asr events of 2025-01-15 at
15:30 are contiguous. -/
theorem adhan_and_prayer_event_geometry_witness :
    (create_adhan_event "Dubai" "2025-01-15" "asr" "15:30").map
        IcsEvent.dtend =
      (create_prayer_event "Dubai" "2025-01-15" "asr" "15:30" 20).map
        IcsEvent.dtstart := by
  obtain ⟨a, p, ha, hp, -, -, -, -, -, -, -, -, hcontig⟩ :=
    adhan_and_prayer_event_geometry.1 "Dubai" "2025-01-15" "asr" "15:30"
      (dtMinutes 2025 1 15 15 30) 20 (by decide) rfl
  rw [ha, hp]
  simp [hcontig]

/-! ## Claim about event identifiers -/

/-- Helper: the uid of a created adhan event is the MD5 of
`"{date}_{prayer}_adhan_{city}"`, independent of the time argument. -/
theorem create_adhan_event_uid_eq (city date prayer time : String)
    (ev : IcsEvent) (h : create_adhan_event city date prayer time = some ev) :
    ev.uid = create_event_uid (date ++ "_" ++ prayer ++ "_adhan_" ++ city) := by
  unfold create_adhan_event at h
  cases hp : parse_datetime (date ++ " " ++ time) with
  | none => rw [hp] at h; simp at h
  | some t =>
    cases hd : ADHAN_DURATIONS prayer with
    | none => rw [hp, hd] at h; simp at h
    | some D =>
      rw [hp, hd] at h
      simp only [Option.some.injEq] at h
      subst h
      rfl

/-- Helper: the uid of a created prayer event is the MD5 of
`"{date}_{prayer}_prayer_{city}"`, independent of the time and
duration arguments. -/
theorem create_prayer_event_uid_eq (city date prayer time : String)
    (dur : Nat) (ev : IcsEvent)
    (h : create_prayer_event city date prayer time dur = some ev) :
    ev.uid = create_event_uid (date ++ "_" ++ prayer ++ "_prayer_" ++ city) := by
  unfold create_prayer_event at h
  cases hp : parse_datetime (date ++ " " ++ time) with
  | none => rw [hp] at h; simp at h
  | some t =>
    rw [hp] at h
    simp only [Option.some.injEq] at h
    subst h
    rfl

/-- Claim C6: event identifiers are deterministic functions of
(date, prayer, event-kind, city): events created for the same date,
prayer and city carry the same uid regardless of the time (or
duration) they were created with, so two regenerations agree; the
adhan and prayer uid key strings of one (date, prayer, city) always
differ, and at the concrete (2025-01-15, fajr, Dubai) the two MD5
uids themselves differ. -/
theorem event_uid_deterministic_and_distinct :
    (∀ (city date prayer t1 t2 : String),
      (create_adhan_event city date prayer t1).isSome = true →
      (create_adhan_event city date prayer t2).isSome = true →
      (create_adhan_event city date prayer t1).map IcsEvent.uid =
        (create_adhan_event city date prayer t2).map IcsEvent.uid) ∧
    (∀ (city date prayer t1 t2 : String) (d1 d2 : Nat),
      (create_prayer_event city date prayer t1 d1).isSome = true →
      (create_prayer_event city date prayer t2 d2).isSome = true →
      (create_prayer_event city date prayer t1 d1).map IcsEvent.uid =
        (create_prayer_event city date prayer t2 d2).map IcsEvent.uid) ∧
    (∀ city date prayer : String,
      date ++ "_" ++ prayer ++ "_adhan_" ++ city ≠
        date ++ "_" ++ prayer ++ "_prayer_" ++ city) ∧
    (create_adhan_event "Dubai" "2025-01-15" "fajr" "05:12").map
        IcsEvent.uid ≠
      (create_prayer_event "Dubai" "2025-01-15" "fajr" "05:12" 25).map
        IcsEvent.uid := by
  refine ⟨?_, ?_, ?_, by decide⟩
  · intro city date prayer t1 t2 h1 h2
    obtain ⟨e1, he1⟩ := Option.isSome_iff_exists.mp h1
    obtain ⟨e2, he2⟩ := Option.isSome_iff_exists.mp h2
    rw [he1, he2, Option.map_some', Option.map_some',
      create_adhan_event_uid_eq city date prayer t1 e1 he1,
      create_adhan_event_uid_eq city date prayer t2 e2 he2]
  · intro city date prayer t1 t2 d1 d2 h1 h2
    obtain ⟨e1, he1⟩ := Option.isSome_iff_exists.mp h1
    obtain ⟨e2, he2⟩ := Option.isSome_iff_exists.mp h2
    rw [he1, he2, Option.map_some', Option.map_some',
      create_prayer_event_uid_eq city date prayer t1 d1 e1 he1,
      create_prayer_event_uid_eq city date prayer t2 d2 e2 he2]
  · intro city date prayer h
    have hl := congrArg String.length h
    simp only [String.length_append,
      show ("_" : String).length = 1 from rfl,
      show ("_adhan_" : String).length = 7 from rfl,
      show ("_prayer_" : String).length = 8 from rfl] at hl
    omega

/-- Witness for C6: adhan events of the same (date, prayer, city) at
two different times share the same uid. -/
theorem event_uid_deterministic_and_distinct_witness :
    (create_adhan_event "Dubai" "2025-01-15" "fajr" "05:12").map
        IcsEvent.uid =
      (create_adhan_event "Dubai" "2025-01-15" "fajr" "06:30").map
        IcsEvent.uid :=
  event_uid_deterministic_and_distinct.1 "Dubai" "2025-01-15" "fajr"
    "05:12" "06:30" (by decide) (by decide)

/-! ## Claim about skipping prayers with empty times -/

/-- Claim C7: for a day-schedule entry whose time for prayer `P` is
empty, the generator synthesises no events for `P`; every other
canonical prayer of that day with a non-empty (well-formed, i.e.
parseable once joined with the date) time still yields both its adhan
event and its prayer event, and they appear among the day's events. -/
theorem empty_time_skips_only_that_prayer :
    ∀ (city : String) (dd : DaySchedule) (P : String),
      P ∈ prayerNames → dd.timings.get P = "" →
      eventsForPrayer city dd P = [] ∧
      ∀ Q, Q ∈ prayerNames → Q ≠ P → dd.timings.get Q ≠ "" →
        (parse_datetime (dd.date ++ " " ++ dd.timings.get Q)).isSome = true →
        (eventsForPrayer city dd Q).length = 2 ∧
        ∀ ev ∈ eventsForPrayer city dd Q, ev ∈ dayEvents city dd := by
  intro city dd P hP hPempty
  refine ⟨by simp [eventsForPrayer, hPempty], ?_⟩
  intro Q hQ hQne hQtime hQparse
  obtain ⟨t, ht⟩ := Option.isSome_iff_exists.mp hQparse
  have hdur : ∃ D, ADHAN_DURATIONS Q = some D := by
    simp only [prayerNames, List.mem_cons, List.mem_singleton] at hQ
    rcases hQ with rfl | rfl | rfl | rfl | rfl | h
    · exact ⟨25, rfl⟩
    · exact ⟨20, rfl⟩
    · exact ⟨20, rfl⟩
    · exact ⟨5, rfl⟩
    · exact ⟨20, rfl⟩
    · simp at h
  obtain ⟨D, hD⟩ := hdur
  have htne : (dd.timings.get Q == "") = false := beq_eq_false_iff_ne.mpr hQtime
  have hev : eventsForPrayer city dd Q =
      [{ uid := create_event_uid (dd.date ++ "_" ++ Q ++ "_adhan_" ++ city)
         dtstart := t, dtend := t + D
         summary := pyTitle Q ++ " Adhan till Iqamah"
         description := pyTitle Q ++ " Adhan Time for " ++ city
         location := city, color := ADHAN_COLOR
         alarmAction := "DISPLAY"
         alarmDescription := pyTitle Q ++ " Adhan", alarmTrigger := 0 },
       { uid := create_event_uid (dd.date ++ "_" ++ Q ++ "_prayer_" ++ city)
         dtstart := t + D, dtend := t + D + PRAYER_DURATION
         summary := pyTitle Q ++ " Prayer"
         description := pyTitle Q ++ " Prayer Time for " ++ city
         location := city, color := PRAYER_COLOR
         alarmAction := "DISPLAY"
         alarmDescription := pyTitle Q ++ " Prayer in 5 minutes"
         alarmTrigger := -5 }] := by
    simp only [eventsForPrayer, create_adhan_event, create_prayer_event,
      htne, ht, hD, Bool.false_eq_true, if_false]
  refine ⟨by rw [hev]; rfl, ?_⟩
  intro ev hmem
  exact List.mem_flatMap.mpr ⟨Q, hQ, hmem⟩

/-- Witness for C7: a day with an empty fajr time and a well-formed
zuhr time yields no fajr events and both zuhr events. -/
theorem empty_time_skips_only_that_prayer_witness :
    eventsForPrayer "Dubai"
      { date := "2025-01-15"
        timings :=
          { fajr := "", zuhr := "12:15", asr := "15:30",
            maghrib := "18:05", isha := "19:35" } } "fajr" = [] ∧
    (eventsForPrayer "Dubai"
      { date := "2025-01-15"
        timings :=
          { fajr := "", zuhr := "12:15", asr := "15:30",
            maghrib := "18:05", isha := "19:35" } } "zuhr").length = 2 := by
  have h := empty_time_skips_only_that_prayer "Dubai"
    { date := "2025-01-15"
      timings :=
        { fajr := "", zuhr := "12:15", asr := "15:30",
          maghrib := "18:05", isha := "19:35" } } "fajr"
    (by decide) rfl
  exact ⟨h.1, (h.2 "zuhr" (by decide) (by decide) (by decide) (by decide)).1⟩

/-! ## Claim about fetch filtering and time parsing -/

/-- Counterexample to claim C9: an entry that matches the requested
city, with a well-formed date and a parseable zuhr time, but whose
fajr field is non-empty and lacks the `'T'` separator, is discarded
wholesale (the `IndexError` from `split('T')[1]` skips the whole day),
not recorded with an empty fajr; with this entry alone the whole fetch
then fails with the no-data error instead of continuing. -/
theorem fetch_time_without_separator_drops_day :
    processItem "Dubai"
      { areaNameEn := "Dubai", gDate := "2025-01-15T00:00:00"
        fajr := "0512", zuhr := "2025-01-15T12:15:00", asr := ""
        maghrib := "", isha := "" } = none ∧
    process_prayer_data "Dubai"
      [{ areaNameEn := "Dubai", gDate := "2025-01-15T00:00:00"
         fajr := "0512", zuhr := "2025-01-15T12:15:00", asr := ""
         maghrib := "", isha := "" }] =
      .error "No prayer times data found for city: Dubai" :=
  ⟨rfl, rfl⟩

/-- Claim C9 as amended: entries whose region name does not match the
requested city case-insensitively are silently discarded; within a
kept entry a time whose `HH:MM:SS` portion fails `strptime` is
recorded as the empty string and the fetch continues; but a non-empty
time field without a `'T'` separator raises and causes that whole
day's entry to be discarded; and if the filtered-and-processed result
is empty the fetch fails with the no-data error, otherwise it returns
the processed entries. -/
theorem fetch_filter_and_time_parse_behavior :
    (∀ (city : String) (item : ApiItem),
      asciiLower item.areaNameEn ≠ asciiLower city →
      processItem city item = none) ∧
    (∀ ts : String, ts ≠ "" → (pySplitChar ts 'T').length = 1 →
      extract_time ts = .error ()) ∧
    process_prayer_data "DUBAI"
      [{ areaNameEn := "Dubai", gDate := "2025-01-15T00:00:00"
         fajr := "2025-01-15T05:12:00.1234567", zuhr := "", asr := ""
         maghrib := "", isha := "" }] =
      .ok [{ date := "2025-01-15"
             timings :=
               { fajr := "05:12", zuhr := "", asr := "", maghrib := ""
                 isha := "" } }] ∧
    process_prayer_data "Dubai"
      [{ areaNameEn := "Dubai", gDate := "2025-01-15T00:00:00"
         fajr := "2025-01-15T99:99:99", zuhr := "2025-01-15T12:15:00"
         asr := "", maghrib := "", isha := "" }] =
      .ok [{ date := "2025-01-15"
             timings :=
               { fajr := "", zuhr := "12:15", asr := "", maghrib := ""
                 isha := "" } }] ∧
    (∀ (city : String) (items : List ApiItem),
      items.filterMap (processItem city) = [] →
      process_prayer_data city items =
        .error ("No prayer times data found for city: " ++ city)) ∧
    (∀ (city : String) (items : List ApiItem),
      items.filterMap (processItem city) ≠ [] →
      process_prayer_data city items =
        .ok (items.filterMap (processItem city))) := by
  refine ⟨?_, ?_, by rfl, by rfl, ?_, ?_⟩
  · intro city item h
    have hb : (asciiLower item.areaNameEn != asciiLower city) = true :=
      bne_iff_ne.mpr h
    simp [processItem, hb]
  · intro ts hne hlen
    have hb : (ts == "") = false := beq_eq_false_iff_ne.mpr hne
    have hget : (pySplitChar ts 'T')[1]? = none :=
      List.getElem?_eq_none (by omega)
    simp [extract_time, hb, hget]
  · intro city items h
    simp [process_prayer_data, h]
  · intro city items h
    simp [process_prayer_data, List.isEmpty_iff, h]

/-- Witness for the amended C9: a non-matching region is dropped, an
empty processed result errors, and a separator-less non-empty time
raises. -/
theorem fetch_filter_and_time_parse_behavior_witness :
    processItem "Dubai"
      { areaNameEn := "Sharjah", gDate := "2025-01-15T00:00:00"
        fajr := "", zuhr := "", asr := "", maghrib := "", isha := "" } =
        none ∧
    extract_time "0512" = .error () ∧
    process_prayer_data "Dubai" [] =
      .error "No prayer times data found for city: Dubai" :=
  ⟨fetch_filter_and_time_parse_behavior.1 "Dubai"
      { areaNameEn := "Sharjah", gDate := "2025-01-15T00:00:00"
        fajr := "", zuhr := "", asr := "", maghrib := "", isha := "" }
      (by decide),
   fetch_filter_and_time_parse_behavior.2.1 "0512" (by decide) (by decide),
   fetch_filter_and_time_parse_behavior.2.2.2.2.1 "Dubai" [] rfl⟩
